import Mathlib

/-!
Shallow embedding of the pybrain_dipy repository: two tutorial notebooks,
`tutorial011_WMTI_tutorial.ipynb` (WMTI / kurtosis microstructure pipeline)
and the HARDI probabilistic tractography notebook.  Arrays are modelled as
functions out of an abstract voxel type, and numpy float entries as either
NaN or an exact rational value; any comparison involving NaN is false,
matching IEEE comparison semantics relied on by the notebook's masking cell.
-/

namespace PybrainDipy

/-- Model of a numpy floating-point entry: either NaN or a numeric value
(represented exactly as a rational).  The notebooks never depend on rounding,
only on comparisons, `np.isnan`, and exact equality with 0. -/
inductive F where
  | nan : F
  | val : ℚ → F
deriving DecidableEq, Repr

/-- Model of `np.isnan` on a single entry. -/
def F.isnan : F → Bool
  | .nan => true
  | .val _ => false

/-- Model of numpy elementwise `<`: any comparison with NaN is False. -/
def F.flt : F → F → Bool
  | .val a, .val b => decide (a < b)
  | _, _ => false

/-- Model of numpy elementwise `>`: any comparison with NaN is False. -/
def F.fgt : F → F → Bool
  | .val a, .val b => decide (a > b)
  | _, _ => false

/-- Model of numpy elementwise `<=`: any comparison with NaN is False. -/
def F.fle : F → F → Bool
  | .val a, .val b => decide (a ≤ b)
  | _, _ => false

/-- Model of numpy elementwise `>=`: any comparison with NaN is False. -/
def F.fge : F → F → Bool
  | .val a, .val b => decide (a ≥ b)
  | _, _ => false

variable {V : Type}

/-- Model of the numpy boolean-mask assignment `m[cond] = False`: entries
where `cond` holds become False, the rest keep their previous value. -/
def maskAssignFalse (m : V → Bool) (cond : V → Bool) : V → Bool :=
  fun v => if cond v then false else m v

/-- WMTI notebook, voxel-selection cell, stage 0:
`well_aligned_mask = np.ones(data.shape[:-1], dtype=bool)`. -/
def wamStage0 : V → Bool := fun _ => true

/-- Stage 1: `well_aligned_mask[cl < 0.4] = False`. -/
def wamStage1 (cl : V → F) : V → Bool :=
  maskAssignFalse wamStage0 (fun v => (cl v).flt (F.val 0.4))

/-- Stage 2: `well_aligned_mask[cp > 0.2] = False`. -/
def wamStage2 (cl cp : V → F) : V → Bool :=
  maskAssignFalse (wamStage1 cl) (fun v => (cp v).fgt (F.val 0.2))

/-- Stage 3: `well_aligned_mask[cs > 0.35] = False`. -/
def wamStage3 (cl cp cs : V → F) : V → Bool :=
  maskAssignFalse (wamStage2 cl cp) (fun v => (cs v).fgt (F.val 0.35))

/-- Stage 4: `well_aligned_mask[np.isnan(cl)] = False`. -/
def wamStage4 (cl cp cs : V → F) : V → Bool :=
  maskAssignFalse (wamStage3 cl cp cs) (fun v => (cl v).isnan)

/-- Stage 5: `well_aligned_mask[np.isnan(cp)] = False`. -/
def wamStage5 (cl cp cs : V → F) : V → Bool :=
  maskAssignFalse (wamStage4 cl cp cs) (fun v => (cp v).isnan)

/-- Stage 6 (final): `well_aligned_mask[np.isnan(cs)] = False`.  This is the
value of `well_aligned_mask` after the voxel-selection cell completes. -/
def well_aligned_mask (cl cp cs : V → F) : V → Bool :=
  maskAssignFalse (wamStage5 cl cp cs) (fun v => (cs v).isnan)

lemma maskAssignFalse_le (m c : V → Bool) (v : V) : maskAssignFalse m c v ≤ m v := by
  unfold maskAssignFalse
  by_cases h : c v = true
  · simp [h]
  · simp [h]

lemma maskAssignFalse_of_false {m c : V → Bool} {v : V} (h : m v = false) :
    maskAssignFalse m c v = false := by
  unfold maskAssignFalse
  rw [h]
  split <;> rfl

lemma maskAssignFalse_of_cond {m c : V → Bool} {v : V} (h : c v = true) :
    maskAssignFalse m c v = false := by
  unfold maskAssignFalse
  rw [h]
  rfl

lemma F.isnan_eq_true_iff (x : F) : x.isnan = true ↔ x = F.nan := by
  cases x <;> simp [F.isnan]

lemma F.flt_nan (y : F) : F.flt F.nan y = false := by
  cases y <;> rfl

lemma F.fgt_nan (y : F) : F.fgt F.nan y = false := by
  cases y <;> rfl

/-- The final mask written out as one boolean expression over one voxel. -/
lemma well_aligned_mask_eq (cl cp cs : V → F) (v : V) :
    well_aligned_mask cl cp cs v =
      (!(cl v).flt (F.val 0.4) && !(cp v).fgt (F.val 0.2) && !(cs v).fgt (F.val 0.35)
        && !(cl v).isnan && !(cp v).isnan && !(cs v).isnan) := by
  unfold well_aligned_mask wamStage5 wamStage4 wamStage3 wamStage2 wamStage1 wamStage0
    maskAssignFalse
  cases h1 : (cl v).flt (F.val 0.4) <;> cases h2 : (cp v).fgt (F.val 0.2) <;>
    cases h3 : (cs v).fgt (F.val 0.35) <;> cases h4 : (cl v).isnan <;>
    cases h5 : (cp v).isnan <;> cases h6 : (cs v).isnan <;> simp [h1, h2, h3, h4, h5, h6]

/-- C1: after the WMTI voxel-selection cell, `well_aligned_mask[v]` is True
iff `cl[v] >= 0.4`, `cp[v] <= 0.2`, `cs[v] <= 0.35` and none of `cl[v]`,
`cp[v]`, `cs[v]` is NaN; the mask starts as all True (stage 0) and each of
the six assignments only lowers it (never sets an entry back to True). -/
theorem C1_well_aligned_mask_characterization (cl cp cs : V → F) (v : V) :
    (well_aligned_mask cl cp cs v = true ↔
      ((cl v).fge (F.val 0.4) = true ∧ (cp v).fle (F.val 0.2) = true ∧
        (cs v).fle (F.val 0.35) = true ∧ (cl v).isnan = false ∧
        (cp v).isnan = false ∧ (cs v).isnan = false))
    ∧ wamStage0 v = true
    ∧ wamStage1 cl v ≤ wamStage0 v
    ∧ wamStage2 cl cp v ≤ wamStage1 cl v
    ∧ wamStage3 cl cp cs v ≤ wamStage2 cl cp v
    ∧ wamStage4 cl cp cs v ≤ wamStage3 cl cp cs v
    ∧ wamStage5 cl cp cs v ≤ wamStage4 cl cp cs v
    ∧ well_aligned_mask cl cp cs v ≤ wamStage5 cl cp cs v := by
  refine ⟨?_, rfl, maskAssignFalse_le _ _ v, maskAssignFalse_le _ _ v,
    maskAssignFalse_le _ _ v, maskAssignFalse_le _ _ v, maskAssignFalse_le _ _ v,
    maskAssignFalse_le _ _ v⟩
  rw [well_aligned_mask_eq]
  cases cl v <;> cases cp v <;> cases cs v <;>
    simp [F.flt, F.fgt, F.fge, F.fle, F.isnan, not_lt, and_assoc]

/-- Pipeline-stage kinds used to classify the notebooks' statements, following
the spec's step order load → mask → smooth → fit model → derive parameters →
threshold/mask → visualize → save; `other` covers imports, model
instantiation, seed generation, tracking and display-only preparation. -/
inductive StepKind where
  | load
  | maskStep
  | smooth
  | fitModel
  | deriveParams
  | thresholdMask
  | visualize
  | save
  | other
deriving DecidableEq, Repr

/-- One notebook statement at pipeline-stage granularity: its stage kind, the
files it writes, and whether it is a try/except exception handler (neither
notebook contains one). -/
structure Stmt where
  kind : StepKind
  fileWrites : List String
  tryExcept : Bool
deriving DecidableEq, Repr

/-- The WMTI notebook `tutorial011_WMTI_tutorial.ipynb`, statement by
statement in execution order. -/
def wmtiProgram : List Stmt :=
  [⟨.other, [], false⟩, -- imports cell
   ⟨.load, [], false⟩, -- get_fnames, load_nifti, read_bvals_bvecs, gradient_table
   ⟨.maskStep, [], false⟩, -- median_otsu
   ⟨.smooth, [], false⟩, -- gauss_std, zeros, gaussian_filter loop
   ⟨.other, [], false⟩, -- KurtosisMicrostructureModel instantiation
   ⟨.fitModel, [], false⟩, -- DiffusionKurtosisModel and dkimodel.fit of data_smooth
   ⟨.deriveParams, [], false⟩, -- cl, cp, cs copies of linearity, planarity, sphericity
   ⟨.thresholdMask, [], false⟩, -- well_aligned_mask construction
   ⟨.fitModel, [], false⟩, -- dki_micro_model.fit of data_smooth with well_aligned_mask
   ⟨.deriveParams, [], false⟩, -- AWF, TORT
   ⟨.deriveParams, [], false⟩, -- MK from dkifit.mk 0 3
   ⟨.other, [], false⟩, -- in-place replacement of zeros by NaN in AWF and TORT
   ⟨.visualize, [], false⟩, -- imshow and colorbar calls
   ⟨.save, ["Kurtosis_Microstructural_measures.png"], false⟩] -- fig1.savefig

/-- The HARDI probabilistic tractography notebook (src/unnamed/part_000),
statement by statement; the visualization block runs only when `has_fury`. -/
def tractographyProgram (has_fury : Bool) : List Stmt :=
  [⟨.other, [], false⟩, -- imports cell
   ⟨.load, [], false⟩, -- get_fnames, load_nifti, read_bvals_bvecs, labels
   ⟨.maskStep, [], false⟩, -- white_matter from labels 1 and 2
   ⟨.maskStep, [], false⟩, -- median_otsu
   ⟨.fitModel, [], false⟩, -- CsaOdfModel sh_order 6 fitted with mask white_matter
   ⟨.deriveParams, [], false⟩, -- odf on repulsion724, pmf, prob_dg
   ⟨.thresholdMask, [], false⟩, -- seed_mask from labels equal to 2
   ⟨.other, [], false⟩, -- seeds_from_mask
   ⟨.thresholdMask, [], false⟩, -- ThresholdStoppingCriterion on csa_fit.gfa at 0.2
   ⟨.other, [], false⟩] -- LocalTracking and Streamlines
  ++ (if has_fury then [⟨.visualize, ["csa_probabilistic_tractogram.png"], false⟩] else [])
  ++ [⟨.save, ["csa_CC_tractography_probabilistic.trk"], false⟩] -- save_trk

/-- A program contains a try/except handler somewhere. -/
def hasTryExcept (p : List Stmt) : Bool := p.any (fun s => s.tryExcept)

/-- The files a program writes, in order. -/
def outputFiles (p : List Stmt) : List String := (p.map Stmt.fileWrites).flatten

/-- The stage kinds of a program, in order. -/
def stepKinds (p : List Stmt) : List StepKind := p.map Stmt.kind

/-- Indices in `l` holding stage `a`. -/
def stepIdxs (a : StepKind) (l : List StepKind) : List Nat :=
  (l.enum.filter (fun q => decide (q.snd = a))).map Prod.fst

/-- Every occurrence of stage `a` comes strictly before every occurrence of
stage `b` (vacuously true when either is absent). -/
def allBefore (a b : StepKind) (l : List StepKind) : Bool :=
  (stepIdxs a l).all (fun i => (stepIdxs b l).all (fun j => decide (i < j)))

/-- Some occurrence of `a` comes before every occurrence of `b`. -/
def someBeforeAll (a b : StepKind) (l : List StepKind) : Bool :=
  (stepIdxs a l).any (fun i => (stepIdxs b l).all (fun j => decide (i < j)))

/-- Some occurrence of `a` comes after every occurrence of `b`. -/
def someAfterAll (a b : StepKind) (l : List StepKind) : Bool :=
  (stepIdxs a l).any (fun i => (stepIdxs b l).all (fun j => decide (j < i)))

/-- Is this stage a visualization or file-export stage. -/
def isVisOrSave (a : StepKind) : Bool :=
  decide (a = StepKind.visualize) || decide (a = StepKind.save)

/-- Every stage other than visualization/export comes before every
visualization/export stage. -/
def visSaveLast (l : List StepKind) : Bool :=
  l.enum.all (fun q =>
    isVisOrSave q.snd ||
      l.enum.all (fun r => !(isVisOrSave r.snd) || decide (q.fst < r.fst)))

/-- The ordering asserted by the claim: masking before smoothing, smoothing
before every fit, every fit and every parameter derivation before the
threshold/mask stage, loading before masking, visualization and export last. -/
def claimedStepOrder (l : List StepKind) : Bool :=
  allBefore .load .maskStep l && allBefore .maskStep .smooth l &&
    allBefore .smooth .fitModel l && allBefore .fitModel .thresholdMask l &&
    allBefore .deriveParams .thresholdMask l && visSaveLast l

/-- C3 counterexample: the claimed ordering fails on the WMTI notebook,
because the KurtosisMicrostructureModel fit (and the derivation of AWF, TORT
and MK) occurs after the well-aligned-mask threshold stage. -/
theorem C3_counterexample :
    allBefore .fitModel .thresholdMask (stepKinds wmtiProgram) = false
    ∧ allBefore .deriveParams .thresholdMask (stepKinds wmtiProgram) = false
    ∧ claimedStepOrder (stepKinds wmtiProgram) = false := by
  decide

/-- C3 amended: the tractography notebook satisfies the claimed step order in
full; the WMTI notebook satisfies load before mask, mask before smoothing,
smoothing before every fit, DKI fit and cl/cp/cs derivation before the
threshold stage, and visualization and export last — but its second model fit
(the microstructure fit) and the AWF/TORT/MK derivations come after the
threshold stage (and before visualization). -/
theorem C3_amended_step_order :
    (∀ b, claimedStepOrder (stepKinds (tractographyProgram b)) = true)
    ∧ allBefore .load .maskStep (stepKinds wmtiProgram) = true
    ∧ allBefore .maskStep .smooth (stepKinds wmtiProgram) = true
    ∧ allBefore .smooth .fitModel (stepKinds wmtiProgram) = true
    ∧ someBeforeAll .fitModel .thresholdMask (stepKinds wmtiProgram) = true
    ∧ someBeforeAll .deriveParams .thresholdMask (stepKinds wmtiProgram) = true
    ∧ someAfterAll .fitModel .thresholdMask (stepKinds wmtiProgram) = true
    ∧ someAfterAll .deriveParams .thresholdMask (stepKinds wmtiProgram) = true
    ∧ allBefore .fitModel .visualize (stepKinds wmtiProgram) = true
    ∧ allBefore .deriveParams .visualize (stepKinds wmtiProgram) = true
    ∧ allBefore .thresholdMask .visualize (stepKinds wmtiProgram) = true
    ∧ visSaveLast (stepKinds wmtiProgram) = true := by
  refine ⟨fun b => ?_, ?_, ?_, ?_, ?_, ?_, ?_, ?_, ?_, ?_, ?_, ?_⟩
  · cases b <;> decide
  all_goals decide

/-- C2: a voxel where any of cl, cp, cs is NaN ends with mask False (so it is
excluded from the KurtosisMicrostructureModel fit, which receives this mask);
each comparison-based stage leaves a voxel whose compared array is NaN
unchanged (comparisons with NaN are False), so the exclusion is achieved by
the three np.isnan stages; and no statement of either notebook is an
exception handler. -/
theorem C2_nan_filtering (cl cp cs : V → F) :
    (∀ v, ((cl v).isnan = true ∨ (cp v).isnan = true ∨ (cs v).isnan = true) →
        well_aligned_mask cl cp cs v = false)
    ∧ (∀ v, (cl v).isnan = true → wamStage1 cl v = wamStage0 v)
    ∧ (∀ v, (cp v).isnan = true → wamStage2 cl cp v = wamStage1 cl v)
    ∧ (∀ v, (cs v).isnan = true → wamStage3 cl cp cs v = wamStage2 cl cp v)
    ∧ hasTryExcept wmtiProgram = false
    ∧ (∀ b, hasTryExcept (tractographyProgram b) = false) := by
  refine ⟨?_, ?_, ?_, ?_, rfl, fun b => ?_⟩
  · intro v h
    rcases h with h | h | h
    · exact maskAssignFalse_of_false (maskAssignFalse_of_false (maskAssignFalse_of_cond h))
    · exact maskAssignFalse_of_false (maskAssignFalse_of_cond h)
    · exact maskAssignFalse_of_cond h
  · intro v h
    rw [F.isnan_eq_true_iff] at h
    simp [wamStage1, maskAssignFalse, h, F.flt_nan]
  · intro v h
    rw [F.isnan_eq_true_iff] at h
    simp [wamStage2, maskAssignFalse, h, F.fgt_nan]
  · intro v h
    rw [F.isnan_eq_true_iff] at h
    simp [wamStage3, maskAssignFalse, h, F.fgt_nan]
  · cases b <;> rfl

/-- C6: the tractography notebook always writes the tractogram
`csa_CC_tractography_probabilistic.trk`, writes the PNG
`csa_probabilistic_tractogram.png` exactly when `has_fury` is true, and the
WMTI notebook unconditionally writes `Kurtosis_Microstructural_measures.png`;
no other files are written by either program. -/
theorem C6_output_artifacts :
    (∀ b, outputFiles (tractographyProgram b) =
      (if b then ["csa_probabilistic_tractogram.png"] else []) ++
        ["csa_CC_tractography_probabilistic.trk"])
    ∧ outputFiles wmtiProgram = ["Kurtosis_Microstructural_measures.png"] := by
  refine ⟨fun b => ?_, rfl⟩
  cases b <;> rfl

/-- Sphere used by the tractography notebook: `sphere = get_sphere('repulsion724')`. -/
def sphereName : String := "repulsion724"

/-- Spherical-harmonic order of the CSA model: `CsaOdfModel(gtab, sh_order=6)`. -/
def csa_sh_order : ℕ := 6

/-- Model of `np.clip(min=0)` on one entry: negative values become zero. -/
def clipMin0 (x : ℚ) : ℚ := max x 0

/-- `white_matter = (labels == 1) | (labels == 2)` in the tractography
notebook; this is the mask the CSA model is fitted on. -/
def white_matter (labels : V → ℚ) : V → Bool :=
  fun v => decide (labels v = 1) || decide (labels v = 2)

/-- The mask argument of `csa_model.fit(data, mask=white_matter)`. -/
def csaFitMask (labels : V → ℚ) : V → Bool := white_matter labels

/-- `seed_mask = (labels == 2)` in the tractography notebook. -/
def seed_mask (labels : V → ℚ) : V → Bool := fun v => decide (labels v = 2)

/-- Model of `dipy.tracking.utils.seeds_from_mask` at voxel granularity: the
set of voxels in which seeds are planted is exactly the set where the mask
holds (the 2 x 2 x 2 within-voxel grid does not leave the voxel). -/
def seeds_from_mask [Fintype V] (m : V → Bool) : Finset V :=
  Finset.univ.filter (fun v => m v = true)

/-- A probabilistic direction getter as configured by
`ProbabilisticDirectionGetter.from_pmf`: the PMF over sphere directions per
voxel, the maximum turning angle in degrees, and the sphere it lives on. -/
structure PDG (V Dir : Type) where
  pmf : V → Dir → ℚ
  max_angle : ℚ
  sphere : String

/-- Model of `ProbabilisticDirectionGetter.from_pmf`. -/
def PDG.from_pmf {Dir : Type} (pmf : V → Dir → ℚ) (max_angle : ℚ) (sphere : String) :
    PDG V Dir :=
  ⟨pmf, max_angle, sphere⟩

/-- Model of the library's sampling of a streamline direction at a voxel: a
draw returns a direction of positive PMF mass (or nothing when the PMF
vanishes on the whole sphere there); `r` stands for the randomness.  The
spec treats the propagation engine as a black box whose directions come only
from the supplied PMF, which is all the notebook relies on. -/
def PDG.sample {Dir : Type} (g : PDG V Dir) (dirs : List Dir) (v : V) (r : ℕ) :
    Option Dir :=
  let support := dirs.filter (fun d => decide (0 < g.pmf v d))
  support[r % support.length]?

/-- The notebook's PMF: `pmf = odf.clip(min=0)`. -/
def tractPmf {Dir : Type} (odf : V → Dir → ℚ) : V → Dir → ℚ :=
  fun v d => clipMin0 (odf v d)

/-- The notebook's direction getter:
`ProbabilisticDirectionGetter.from_pmf(pmf, max_angle=30., sphere=sphere)`. -/
def prob_dg {Dir : Type} (odf : V → Dir → ℚ) : PDG V Dir :=
  PDG.from_pmf (tractPmf odf) 30 sphereName

/-- C4: the direction getter is built from the CSA ODFs clipped at zero —
for every voxel and sphere direction its PMF entry is `max (odf v d) 0` —
with maximum angle 30 degrees on the repulsion724 sphere; the CSA model uses
sh_order 6 and is fitted on the white-matter mask; and any direction the
getter samples has positive PMF mass, so directions come only from this PMF. -/
theorem C4_probabilistic_direction_getter {Dir : Type} (odf : V → Dir → ℚ)
    (labels : V → ℚ) :
    (∀ v d, (prob_dg odf).pmf v d = max (odf v d) 0)
    ∧ (prob_dg odf).max_angle = 30
    ∧ (prob_dg odf).sphere = "repulsion724"
    ∧ csa_sh_order = 6
    ∧ csaFitMask labels = white_matter labels
    ∧ (∀ (dirs : List Dir) (v : V) (r : ℕ) (d : Dir),
        (prob_dg odf).sample dirs v r = some d → 0 < (prob_dg odf).pmf v d) := by
  refine ⟨fun v d => rfl, rfl, rfl, rfl, rfl, ?_⟩
  intro dirs v r d h
  unfold PDG.sample at h
  have hm : d ∈ dirs.filter (fun d => decide (0 < (prob_dg odf).pmf v d)) :=
    List.getElem?_mem h
  exact of_decide_eq_true (List.mem_filter.mp hm).2

/-- C8: every seed voxel lies in the region the CSA model was fitted on —
`seed_mask` (labels equal to 2) implies `white_matter` (labels equal to 1 or
2), and every voxel produced by `seeds_from_mask` on the seed mask satisfies
the fit mask. -/
theorem C8_seeds_within_fit_region [Fintype V] (labels : V → ℚ) (v : V) :
    (seed_mask labels v = true → white_matter labels v = true)
    ∧ (v ∈ seeds_from_mask (seed_mask labels) → csaFitMask labels v = true) := by
  constructor
  · intro h
    simp [seed_mask] at h
    simp [white_matter, h]
  · intro h
    have h2 : seed_mask labels v = true := (Finset.mem_filter.mp h).2
    simp [seed_mask] at h2
    simp [csaFitMask, white_matter, h2]

section Smoothing

variable {α : Type}

/-- Full width at half maximum used by the WMTI notebook: `fwhm = 1.25`. -/
def fwhm : ℚ := 1.25

/-- Standard deviation passed to every gaussian_filter call in the WMTI
notebook: `gauss_std = fwhm / np.sqrt(8 * np.log(2))`. -/
noncomputable def gauss_std : ℝ := (fwhm : ℝ) / Real.sqrt (8 * Real.log 2)

/-- The smoothing loop of the WMTI notebook over the last-axis volume index:
`data_smooth = np.zeros(data.shape)` and then
`for v in range(data.shape[-1]): data_smooth[..., v] = gaussian_filter(data[..., v], sigma=gauss_std)`.
The first component is the resulting array of volumes, the second counts how
many times each volume slot was written. -/
def smoothingLoop (n : ℕ) (gf : α → α) (zero : α) (data : Fin n → α) :
    (Fin n → α) × (Fin n → ℕ) :=
  (List.finRange n).foldl
    (fun s v => (Function.update s.1 v (gf (data v)), Function.update s.2 v (s.2 v + 1)))
    (fun _ => zero, fun _ => 0)

/-- The notebook's `data_smooth`, with the Gaussian filter applied at
standard deviation `gauss_std` to every raw volume. -/
noncomputable def data_smooth (n : ℕ) (gf : ℝ → α → α) (zero : α) (data : Fin n → α) :
    (Fin n → α) × (Fin n → ℕ) :=
  smoothingLoop n (gf gauss_std) zero data

lemma smoothFoldl_fst {n : ℕ} (gf : α → α) (data : Fin n → α) (l : List (Fin n)) :
    ∀ (s : (Fin n → α) × (Fin n → ℕ)) (w : Fin n),
      (l.foldl (fun s v => (Function.update s.1 v (gf (data v)),
          Function.update s.2 v (s.2 v + 1))) s).1 w
        = if w ∈ l then gf (data w) else s.1 w := by
  induction l with
  | nil => intro s w; simp
  | cons v t ih =>
      intro s w
      rw [List.foldl_cons, ih]
      by_cases hw : w ∈ t
      · simp [hw]
      · by_cases hv : w = v
        · subst hv
          simp [hw, Function.update_same]
        · simp [hw, hv, Function.update_noteq hv]

lemma smoothFoldl_snd {n : ℕ} (gf : α → α) (data : Fin n → α) (l : List (Fin n)) :
    ∀ (s : (Fin n → α) × (Fin n → ℕ)) (w : Fin n),
      (l.foldl (fun s v => (Function.update s.1 v (gf (data v)),
          Function.update s.2 v (s.2 v + 1))) s).2 w
        = s.2 w + l.count w := by
  induction l with
  | nil => intro s w; simp
  | cons v t ih =>
      intro s w
      rw [List.foldl_cons, ih]
      rcases eq_or_ne w v with hv | hv
      · subst hv
        simp [Function.update_same, List.count_cons_self]
        omega
      · simp [Function.update_noteq hv, List.count_cons_of_ne hv]

/-- C5: smoothing treats each 3-D volume independently — after the loop,
every last-axis slot `w` holds the Gaussian filter (at sigma `gauss_std`,
which equals `1.25 / sqrt(8 ln 2)`) of the raw volume `data w`, and every
slot was written exactly once (none skipped, none overwritten). -/
theorem C5_per_volume_smoothing (n : ℕ) (gf : ℝ → α → α) (zero : α)
    (data : Fin n → α) (w : Fin n) :
    (data_smooth n gf zero data).1 w = gf gauss_std (data w)
    ∧ (data_smooth n gf zero data).2 w = 1
    ∧ gauss_std = (1.25 : ℝ) / Real.sqrt (8 * Real.log 2) := by
  refine ⟨?_, ?_, by norm_num [gauss_std, fwhm]⟩
  · rw [data_smooth, smoothingLoop, smoothFoldl_fst]
    simp [List.mem_finRange]
  · rw [data_smooth, smoothingLoop, smoothFoldl_snd]
    simp [List.count_eq_one_of_mem (List.nodup_finRange n) (List.mem_finRange w)]

end Smoothing

/-- Model of the in-place numpy mutation `a[a == 0] = np.nan`: entries equal
to 0 become NaN, every other entry (NaN included, since NaN == 0 is False) is
left unchanged. -/
def zerosToNan (a : V → F) : V → F :=
  fun v => if a v = F.val 0 then F.nan else a v

/-- The arrays alive when the WMTI plotting cell runs. -/
structure PlotArrays (V : Type) where
  AWF : V → F
  TORT : V → F
  MK : V → F
  cl : V → F
  cp : V → F
  cs : V → F

/-- The WMTI plotting cell's effect on the arrays: `AWF[AWF == 0] = np.nan`
and `TORT[TORT == 0] = np.nan`; every other array is only read (by imshow). -/
def plotCell (s : PlotArrays V) : PlotArrays V :=
  ⟨zerosToNan s.AWF, zerosToNan s.TORT, s.MK, s.cl, s.cp, s.cs⟩

/-- C10: the plotting cell replaces exactly the zero entries of AWF and TORT
by NaN and leaves non-zero entries unchanged, so afterwards neither array
contains a 0; no array other than AWF and TORT is modified. -/
theorem C10_plot_cell_mutation (s : PlotArrays V) (v : V) :
    ((s.AWF v = F.val 0 → (plotCell s).AWF v = F.nan)
      ∧ (s.AWF v ≠ F.val 0 → (plotCell s).AWF v = s.AWF v))
    ∧ ((s.TORT v = F.val 0 → (plotCell s).TORT v = F.nan)
      ∧ (s.TORT v ≠ F.val 0 → (plotCell s).TORT v = s.TORT v))
    ∧ (plotCell s).AWF v ≠ F.val 0
    ∧ (plotCell s).TORT v ≠ F.val 0
    ∧ (plotCell s).MK = s.MK
    ∧ (plotCell s).cl = s.cl
    ∧ (plotCell s).cp = s.cp
    ∧ (plotCell s).cs = s.cs := by
  refine ⟨⟨fun h => ?_, fun h => ?_⟩, ⟨fun h => ?_, fun h => ?_⟩, ?_, ?_, rfl, rfl, rfl, rfl⟩
  · simp [plotCell, zerosToNan, h]
  · simp [plotCell, zerosToNan, h]
  · simp [plotCell, zerosToNan, h]
  · simp [plotCell, zerosToNan, h]
  · simp only [plotCell, zerosToNan]
    split <;> simp_all
  · simp only [plotCell, zerosToNan]
    split <;> simp_all

/-- The tuples returned by the data-fetching utility `get_fnames` for the
dataset names the notebooks request. -/
structure GetFnames where
  stanford_hardi : String × String × String
  stanford_labels : String
  cfin_multib : String × String × String × String

/-- Input paths the tractography notebook hands to a loader:
`load_nifti(hardi_fname)`, `read_bvals_bvecs(hardi_bval_fname, hardi_bvec_fname)`,
`load_nifti_data(label_fname)`. -/
def tractographyInputPaths (g : GetFnames) : List String :=
  [g.stanford_hardi.1, g.stanford_hardi.2.1, g.stanford_hardi.2.2, g.stanford_labels]

/-- Input paths the WMTI notebook hands to a loader: `load_nifti(fraw)` and
`read_bvals_bvecs(fbval, fbvec)`; `t1_fname` is fetched but never loaded. -/
def wmtiInputPaths (g : GetFnames) : List String :=
  [g.cfin_multib.1, g.cfin_multib.2.1, g.cfin_multib.2.2.1]

/-- All values returned by the get_fnames calls of the two notebooks. -/
def fetchedPaths (g : GetFnames) : List String :=
  [g.stanford_hardi.1, g.stanford_hardi.2.1, g.stanford_hardi.2.2, g.stanford_labels,
    g.cfin_multib.1, g.cfin_multib.2.1, g.cfin_multib.2.2.1, g.cfin_multib.2.2.2]

/-- C7: every input file path either notebook consumes is one of the values
returned by get_fnames — no consumed path is a literal or user input, since
this holds for every possible value of the get_fnames results. -/
theorem C7_inputs_from_get_fnames (g : GetFnames) (p : String)
    (h : p ∈ tractographyInputPaths g ++ wmtiInputPaths g) : p ∈ fetchedPaths g := by
  simp [tractographyInputPaths, wmtiInputPaths, fetchedPaths] at h ⊢
  tauto

/-- C7 witness: a concrete consumed path of the tractography notebook is
among the fetched paths. -/
theorem C7_witness :
    "hardi.nii" ∈ fetchedPaths ⟨⟨"hardi.nii", "hardi.bval", "hardi.bvec"⟩,
      "labels.nii", ⟨"cfin.nii", "cfin.bval", "cfin.bvec", "t1.nii"⟩⟩ :=
  C7_inputs_from_get_fnames ⟨⟨"hardi.nii", "hardi.bval", "hardi.bvec"⟩,
    "labels.nii", ⟨"cfin.nii", "cfin.bval", "cfin.bvec", "t1.nii"⟩⟩ "hardi.nii"
    (by simp [tractographyInputPaths, wmtiInputPaths])

section Pipeline

variable {Data DFit MFit : Type}

/-- The values the WMTI notebook computes downstream of `median_otsu`: the
smoothed data, the DKI fit, the well-aligned mask, and the microstructure
parameters AWF and TORT (the saved figure is a function of the last three). -/
structure WmtiResult (Data DFit MFit V : Type) where
  data_smooth : Data
  dkifit : DFit
  wam : V → Bool
  awf : V → F
  tort : V → F

/-- The WMTI notebook downstream of data loading, with the library calls as
parameters: `maskdata, mask = median_otsu(...)` is `medianOtsuOut`; smoothing
is applied to the raw `data`; the DKI model is fitted on the smoothed data
with the otsu `mask`; cl, cp, cs come from that fit and give
`well_aligned_mask`; the microstructure model is fitted on the smoothed data
with that mask as its fit mask; AWF and TORT come from that second fit. -/
def wmtiRun (medianOtsuOut : Data × (V → Bool)) (data : Data)
    (smoothAll : Data → Data)
    (dkiFit : Data → (V → Bool) → DFit)
    (linearity planarity sphericity : DFit → (V → F))
    (microFit : Data → (V → Bool) → MFit)
    (awfOf tortOf : MFit → (V → F)) : WmtiResult Data DFit MFit V :=
  let mask := medianOtsuOut.2
  let ds := smoothAll data
  let dkifit := dkiFit ds mask
  let cl := linearity dkifit
  let cp := planarity dkifit
  let cs := sphericity dkifit
  let wam := well_aligned_mask cl cp cs
  let mfit := microFit ds wam
  ⟨ds, dkifit, wam, awfOf mfit, tortOf mfit⟩

/-- C9: the masked data array returned by median_otsu is never read again —
any two runs whose median_otsu outputs agree on the boolean mask (the second
component) produce identical downstream results, whatever the maskdata
components are; and the smoothing is applied to the raw data array. -/
theorem C9_maskdata_never_read (o1 o2 : Data × (V → Bool)) (data : Data)
    (smoothAll : Data → Data) (dkiFit : Data → (V → Bool) → DFit)
    (linearity planarity sphericity : DFit → (V → F))
    (microFit : Data → (V → Bool) → MFit) (awfOf tortOf : MFit → (V → F))
    (h : o1.2 = o2.2) :
    wmtiRun o1 data smoothAll dkiFit linearity planarity sphericity microFit awfOf tortOf
      = wmtiRun o2 data smoothAll dkiFit linearity planarity sphericity microFit awfOf tortOf
    ∧ (wmtiRun o1 data smoothAll dkiFit linearity planarity sphericity microFit
        awfOf tortOf).data_smooth = smoothAll data := by
  obtain ⟨md1, m1⟩ := o1
  obtain ⟨md2, m2⟩ := o2
  cases h
  exact ⟨rfl, rfl⟩

end Pipeline

/-- C9 witness: two concrete runs differing only in maskdata agree. -/
theorem C9_witness :
    wmtiRun ((0 : ℚ), fun _ : Fin 1 => true) (0 : ℚ) id (fun d _ => d)
        (fun _ => fun _ => F.val 1) (fun _ => fun _ => F.val 0)
        (fun _ => fun _ => F.val 0) (fun d _ => d) (fun _ => fun _ => F.val 0)
        (fun _ => fun _ => F.val 0)
      = wmtiRun ((7 : ℚ), fun _ : Fin 1 => true) (0 : ℚ) id (fun d _ => d)
        (fun _ => fun _ => F.val 1) (fun _ => fun _ => F.val 0)
        (fun _ => fun _ => F.val 0) (fun d _ => d) (fun _ => fun _ => F.val 0)
        (fun _ => fun _ => F.val 0) :=
  (C9_maskdata_never_read ((0 : ℚ), fun _ : Fin 1 => true)
    ((7 : ℚ), fun _ : Fin 1 => true) (0 : ℚ) id (fun d _ => d)
    (fun _ => fun _ => F.val 1) (fun _ => fun _ => F.val 0)
    (fun _ => fun _ => F.val 0) (fun d _ => d) (fun _ => fun _ => F.val 0)
    (fun _ => fun _ => F.val 0) rfl).1

end PybrainDipy
